import Mathlib

/-!
Shallow embedding of the LiveTrackBot tracking engine (`src/livetrackbot/bot.py`,
`src/livetrackbot/point.py`, `src/livetrackbot/pilot.py`).

The engine polls a JSON endpoint, diffs each pilot's reported samples against a
stored `last_point` watermark, classifies each new point by its `Msg` tag and
sends Telegram notifications.  External collaborators (HTTP fetch, Telegram
send/delete) are modelled by oracles in an `Env` record; Python exceptions are
modelled with `Except PyErr`; Python `None` with `Option`.  Each definition
mirrors one Python function or block, named after it.  The decoded snapshot
body is modelled twice: a typed view (`FetchResult`/`PilotData`, well-formed
payloads) and a raw view (`FetchRaw`/`Json`, payloads of arbitrary shape whose
dict accesses raise where Python raises); the two agree on well-formed data.
-/

namespace LiveTrack

/-- Python exception kinds that can arise on the modelled code paths. -/
inductive PyErr where
  | typeError
  | keyError
  | valueError
  | badRequest
  | attributeError
  | timedOut
  | readTimeout
deriving DecidableEq, Repr

/-- Model of a `telegram.Message` handle: only `chat.id` and `message_id`
are ever used by the code (in `delete_messages`). -/
structure TgMessage where
  chat_id : Int
  message_id : Int
deriving DecidableEq, Repr

/-- One decoded sample record of the snapshot JSON, with the field names of the
wire format (`cumDist, takeOffDist, flightTime, AvgSpeed, LegSpeed, LegDist,
Lat, Lng, Alt, Msg, DateTime, unixTime, spotId`).  `Lat`/`Lng` are carried as
their decimal source text: they are only ever interpolated into URLs, never
computed with. -/
structure Sample where
  cumDist : String
  takeOffDist : String
  flightTime : String
  avgSpeed : String
  legSpeed : String
  legDist : String
  lat : String
  lng : String
  alt : Int
  msg : String
  dateTime : String
  unixTime : Int
  spotId : Int
deriving DecidableEq, Repr

/-- The `Point` dataclass of `point.py`, with its field names. -/
structure Point where
  cum_dist : String
  take_off_dist : String
  flight_time : String
  avg_speed : String
  leg_speed : String
  leg_dist : String
  lat : String
  lng : String
  alt : Int
  msg : String
  date_time : String
  unix_time : Int
  spot_id : Int
deriving DecidableEq, Repr

/-- The `Point.__init__(json_dict)` constructor of `point.py`: copies each wire
field of the sample into the dataclass field of the same meaning. -/
def Point.ofSample (s : Sample) : Point :=
  { cum_dist := s.cumDist
    take_off_dist := s.takeOffDist
    flight_time := s.flightTime
    avg_speed := s.avgSpeed
    leg_speed := s.legSpeed
    leg_dist := s.legDist
    lat := s.lat
    lng := s.lng
    alt := s.alt
    msg := s.msg
    date_time := s.dateTime
    unix_time := s.unixTime
    spot_id := s.spotId }

/-- The `Pilot` dataclass of `pilot.py`: fields `name`, `last_point`, `home`,
all three without defaults, hence all three required by the generated
`__init__`. -/
structure Pilot where
  name : String
  last_point : Point
  home : String
deriving DecidableEq, Repr

/-- The `__init__` generated by `@dataclass` for `Pilot` (`pilot.py`): every
field lacks a default, so every argument is required; a call site that omits
one raises `TypeError`.  Arguments are `Option`s so a call site can be
modelled with exactly the keyword arguments it passes. -/
def Pilot.dataclassInit (name : Option String) (last_point : Option Point)
    (home : Option String) : Except PyErr Pilot :=
  match name, last_point, home with
  | some n, some lp, some h => .ok { name := n, last_point := lp, home := h }
  | _, _, _ => .error .typeError

/-- One pilot's entry of the decoded snapshot: the sample dictionary (keys are
stringified sample indices, in document order) together with the value of its
`"Count"` key.  In the real dict the `"Count"` pair sits among the items and
`run` filters it out by key; well-formed snapshots never use `"Count"` as a
sample key, so the two-part representation is faithful. -/
structure PilotData where
  samples : List (String × Sample)
  count : Int
deriving DecidableEq, Repr

/-- Dictionary lookup `points[k]` on the sample dict: `none` models a
`KeyError`. -/
def lookupSample (pd : PilotData) (k : String) : Option Sample :=
  (pd.samples.find? (fun kv => kv.1 == k)).map (·.2)

/-- The decoded JSON snapshot: pilot name to that pilot's samples, in document
order (Python dict preserves insertion order). -/
def Snapshot := List (String × PilotData)

/-- The Prometheus metrics of `LivetrackBot.__init__`: three counters and the
`pilots_flying` gauge. -/
structure Metrics where
  errors_total : Nat
  messages_send_total : Nat
  pilots_flying : Int
  requests_total : Nat
deriving DecidableEq, Repr

/-- Outcome of one `requests.get` + `.json()` round trip, as distinguished by
the `except` arms of `LivetrackBot.get_json`: the four caught
`requests.exceptions` kinds, a 2xx body that is not valid JSON
(`json.JSONDecodeError`), or a decoded snapshot.  The `decoded` payload here
is already in the well-formed shape the engine expects; bodies of arbitrary
JSON shape are modelled by `FetchRaw` and `Json` below, which agree with
this typed view on well-formed payloads. -/
inductive FetchResult where
  | httpError
  | connectionError
  | timeoutError
  | requestException
  | invalidJson
  | decoded (data : List (String × PilotData))
deriving DecidableEq

/-- Outcome of one `bot.sendMessage` call, as distinguished by
`LivetrackBot.send_message`: success with a message handle, the two caught
timeout exceptions, or `telegram.error.BadRequest` (which `send_message` does
not catch). -/
inductive SendResult where
  | sent (m : TgMessage)
  | readTimeout
  | timedOut
  | badRequest
deriving DecidableEq

/-- External world for one poll cycle: today's UTC date (as a day number), the
fetch outcome, the outcome of the n-th `sendMessage` call of the cycle, and
whether deleting a given handle answers `BadRequest`. -/
structure Env where
  today : Int
  fetch : FetchResult
  send : Nat → SendResult
  delete : TgMessage → Bool

/-- The engine state owned by `LivetrackBot.run`: the pilot table (insertion
ordered), the outstanding message handles (`None` entries are failed sends),
the rollover date `last_update`, and the metrics. -/
structure BotState where
  pilots : List (String × Pilot)
  messages : List (Option TgMessage)
  last_update : Int
  metrics : Metrics
deriving DecidableEq, Repr

/-- The semantic kind of an outbound notification, one per message-producing
branch of `run` (the spec's TookOff / Landed / Alert / ResumedTracking /
TrackingStopped / Ignored classification). -/
inductive Event where
  | tookOff
  | landed
  | alert
  | resumedTracking
  | trackingStopped
  | ignored
deriving DecidableEq, Repr

/-- Spec-side classification table, written from the spec's words ("tag
OK maps to Landed, HELP/MOVE/CUSTOM to Alert, START to ResumedTracking, OFF to
TrackingStopped, anything else Ignored"), to be compared with the engine's
branch structure. -/
def classifyMsgSpec (tag : String) : Event :=
  if tag = "OK" then .landed
  else if tag ∈ ["HELP", "MOVE", "CUSTOM"] then .alert
  else if tag = "START" then .resumedTracking
  else if tag = "OFF" then .trackingStopped
  else .ignored

/-- Model of `LivetrackBot.get_json`: on any of the four caught request
exceptions the error counter is bumped and `None` returned; on a 2xx response
the request counter is bumped, then a `json.JSONDecodeError` also bumps the
error counter and returns `None`; otherwise the decoded data is returned. -/
def get_json (fr : FetchResult) (m : Metrics) :
    Option (List (String × PilotData)) × Metrics :=
  match fr with
  | .httpError => (none, { m with errors_total := m.errors_total + 1 })
  | .connectionError => (none, { m with errors_total := m.errors_total + 1 })
  | .timeoutError => (none, { m with errors_total := m.errors_total + 1 })
  | .requestException => (none, { m with errors_total := m.errors_total + 1 })
  | .invalidJson =>
      (none, { m with requests_total := m.requests_total + 1,
                      errors_total := m.errors_total + 1 })
  | .decoded data =>
      (some data, { m with requests_total := m.requests_total + 1 })

/-- Model of `LivetrackBot.send_message`: `msg = None`; the send is attempted;
on success the handle is kept and `messages_send_total` bumped; the two
timeout exception kinds are caught, logged and bump `errors_total`, leaving
`msg = None`; any other Telegram error (e.g. `BadRequest`) is not caught and
propagates.  Returns the value of `msg` together with the updated metrics. -/
def send_message (env : Env) (n : Nat) (m : Metrics) :
    Except PyErr (Option TgMessage × Metrics) :=
  match env.send n with
  | .sent msg =>
      .ok (some msg, { m with messages_send_total := m.messages_send_total + 1 })
  | .readTimeout => .ok (none, { m with errors_total := m.errors_total + 1 })
  | .timedOut => .ok (none, { m with errors_total := m.errors_total + 1 })
  | .badRequest => .error .badRequest

/-- Body of one iteration of `delete_messages`, before the `except` clauses:
evaluating `msg.chat.id` on a `None` entry raises `AttributeError` before any
request is made; on a real handle `bot.deleteMessage` is called (the request
is issued) and the server may answer `BadRequest`.  Returns the delete
requests issued by this iteration together with the raised-or-ok outcome. -/
def deleteIter (env : Env) (msg : Option TgMessage) :
    List TgMessage × Except PyErr Unit :=
  match msg with
  | none => ([], .error .attributeError)
  | some m => ([m], if env.delete m then .error .badRequest else .ok ())

/-- The `except telegram.error.BadRequest` / `except AttributeError` clauses of
`delete_messages`: exactly these two exception kinds are caught (and logged);
anything else propagates. -/
def catchDeleteErrs (r : Except PyErr Unit) : Except PyErr Unit :=
  match r with
  | .error .badRequest => .ok ()
  | .error .attributeError => .ok ()
  | r => r

/-- Model of `LivetrackBot.delete_messages`: iterate over the handle list,
issuing a delete request per real handle, catching `BadRequest` and
`AttributeError` per entry.  Returns the delete requests issued, in order. -/
def delete_messages (env : Env) : List (Option TgMessage) →
    Except PyErr (List TgMessage)
  | [] => .ok []
  | msg :: rest => do
      let (issued, r) := deleteIter env msg
      let _ ← catchDeleteErrs r
      let more ← delete_messages env rest
      .ok (issued ++ more)

/-- The `unseen_points` computation of `run` (bot.py lines 211-219): keep the
dict items other than the `"Count"` key whose `unixTime` is strictly above the
pilot's stored watermark, turn each into a `Point`, and sort ascending by
`unix_time` (Python's `sorted` is an ascending stable sort). -/
def unseenPoints (pd : PilotData) (watermark : Int) : List Point :=
  ((pd.samples.filter
      (fun kv => kv.1 != "Count" && decide (watermark < kv.2.unixTime))).map
    (fun kv => Point.ofSample kv.2)).mergeSort
    (fun a b => decide (a.unix_time ≤ b.unix_time))

/-- Numeric value of a digit character. -/
def dval (c : Char) : Nat := c.toNat - 48

/-- Model of a CPython `_strptime` two-digit-or-one-digit numeric directive
(such as `%m`, whose regex is `1[0-2]|0[1-9]|[1-9]`): try the two-digit
alternative when its value lies in `[lo2, hi2]`, otherwise fall back to a
single digit of value at least `lo1`.  Every such directive in the format at
hand is followed by a non-digit literal, so this deterministic choice agrees
with the regex engine's backtracking. -/
def parseField (lo2 hi2 lo1 : Nat) : List Char → Option (Nat × List Char)
  | c1 :: c2 :: rest =>
      if c1.isDigit && c2.isDigit then
        let v := dval c1 * 10 + dval c2
        if lo2 ≤ v && v ≤ hi2 then some (v, rest)
        else if lo1 ≤ dval c1 then some (dval c1, c2 :: rest)
        else none
      else if c1.isDigit && lo1 ≤ dval c1 then some (dval c1, c2 :: rest)
      else none
  | [c1] =>
      if c1.isDigit && lo1 ≤ dval c1 then some (dval c1, []) else none
  | [] => none

/-- Four mandatory digits, the regex of the `%Y` directive. -/
def parseYear4 : List Char → Option (Nat × List Char)
  | a :: b :: c :: d :: rest =>
      if a.isDigit && b.isDigit && c.isDigit && d.isDigit then
        some (((dval a * 10 + dval b) * 10 + dval c) * 10 + dval d, rest)
      else none
  | _ => none

/-- Literal character of the format string. -/
def lit (ch : Char) : List Char → Option (List Char)
  | c :: rest => if c = ch then some rest else none
  | [] => none

/-- The literal `T` of the format: `_strptime` compiles its regex with
`IGNORECASE`, so a lowercase `t` matches too. -/
def litT : List Char → Option (List Char)
  | c :: rest => if c = 'T' ∨ c = 't' then some rest else none
  | [] => none

/-- Exactly two digits whose value is at most `hi` (the `\d\d` and `[0-5]\d`
pieces of the `%z` regex). -/
def parse2digits (hi : Nat) : List Char → Option (Nat × List Char)
  | a :: b :: rest =>
      if a.isDigit && b.isDigit && dval a * 10 + dval b ≤ hi then
        some (dval a * 10 + dval b, rest)
      else none
  | _ => none

/-- Drop one optional colon (the `:?` pieces of the `%z` regex). -/
def dropColonOpt : List Char → List Char
  | ':' :: rest => rest
  | cs => cs

/-- Magnitude in seconds of a signed UTC offset after its sign, per the `%z`
regex `\d\d:?[0-5]\d(:?[0-5]\d(\.\d{1,6})?)?` anchored at the end of the
input; hours run up to 99 in the regex but `datetime.timezone` then requires
the whole offset to be strictly below 24 hours (else `ValueError`).  The
fractional part is validated and discarded (it cannot affect that bound, and
the formatted output never shows it). -/
def parseOffsetMag (cs : List Char) : Option Nat := do
  let (hh, cs) ← parse2digits 99 cs
  let cs := dropColonOpt cs
  let (mm, cs) ← parse2digits 59 cs
  let base ← do
    match cs with
    | [] => some (hh * 3600 + mm * 60)
    | _ =>
        let cs := dropColonOpt cs
        let (ss, cs) ← parse2digits 59 cs
        match cs with
        | [] => some (hh * 3600 + mm * 60 + ss)
        | '.' :: ds =>
            if ds ≠ [] ∧ ds.length ≤ 6 ∧ ds.all Char.isDigit then
              some (hh * 3600 + mm * 60 + ss)
            else none
        | _ => none
  if base < 86400 then some base else none

/-- The `%z` directive together with the end of the format: either the literal
`Z` (kept case-sensitive by `(?-i:Z)` in `_strptime`) or a signed offset, and
nothing may remain after it ("unconverted data remains" is a `ValueError`). -/
def parseTzTail : List Char → Option Int
  | ['Z'] => some 0
  | '+' :: rest => (parseOffsetMag rest).map Int.ofNat
  | '-' :: rest => (parseOffsetMag rest).map (fun v => -(Int.ofNat v))
  | _ => none

/-- Gregorian leap-year rule, as used by `datetime`. -/
def isLeapYear (y : Nat) : Bool :=
  y % 4 = 0 && (y % 100 != 0 || y % 400 = 0)

/-- Length of a month, as enforced by the `datetime` constructor. -/
def daysInMonth (y m : Nat) : Nat :=
  if m = 2 then (if isLeapYear y then 29 else 28)
  else if m ∈ [4, 6, 9, 11] then 30
  else 31

/-- The wall-clock fields of the `datetime` produced by a successful
`strptime`; `tzSeconds` is the parsed UTC offset (the engine's `strftime`
output never converts or displays it). -/
structure PyDateTime where
  year : Nat
  month : Nat
  day : Nat
  hour : Nat
  minute : Nat
  second : Nat
  tzSeconds : Int
deriving DecidableEq, Repr

/-- Model of `datetime.strptime(s, "%Y-%m-%dT%H:%M:%S%z")`: the directive
regexes of CPython's `_strptime` chained over the whole input, followed by the
range checks the `datetime` constructor performs (year at least 1, day within
the month, second at most 59 — the regex alone would admit leap seconds 60 and
61 — and the offset bound checked in `parseOffsetMag`).  `none` models the
`ValueError` that `Point.format_date` catches. -/
def strptimePrimary (s : String) : Option PyDateTime := do
  let cs := s.toList
  let (y, cs) ← parseYear4 cs
  let cs ← lit '-' cs
  let (mo, cs) ← parseField 1 12 1 cs
  let cs ← lit '-' cs
  let (d, cs) ← parseField 1 31 1 cs
  let cs ← litT cs
  let (h, cs) ← parseField 0 23 0 cs
  let cs ← lit ':' cs
  let (mi, cs) ← parseField 0 59 0 cs
  let cs ← lit ':' cs
  let (sec, cs) ← parseField 0 61 0 cs
  let off ← parseTzTail cs
  if 1 ≤ y ∧ d ≤ daysInMonth y mo ∧ sec ≤ 59 then
    some ⟨y, mo, d, h, mi, sec, off⟩
  else none

/-- Model of `datetime.strptime(s, "%Y-%m-%dT%H:%M:%S%")`: the second format
string of `Point.format_date` ends in a lone `%`, which CPython's `_strptime`
rejects while compiling the pattern ("stray %% in format") with a
`ValueError`, before looking at the input — so this fallback parse fails on
every input. -/
def strptimeFallback (_ : String) : Option PyDateTime := none

/-- Zero-padded two-digit rendering, as `%m`/`%d`/`%H`/`%M`/`%S` produce. -/
def pad2 (n : Nat) : String :=
  if n < 10 then "0" ++ toString n else toString n

/-- Model of `.strftime("%Y-%m-%d %H:%M:%S UTC")` on the parsed value: the
wall-clock fields are printed as parsed (no timezone conversion) with the
fixed `UTC` suffix; `%Y` is not zero-padded on glibc, and the primary format
only parses four-digit years anyway. -/
def strftimeOut (t : PyDateTime) : String :=
  toString t.year ++ "-" ++ pad2 t.month ++ "-" ++ pad2 t.day ++ " " ++
    pad2 t.hour ++ ":" ++ pad2 t.minute ++ ":" ++ pad2 t.second ++ " UTC"

/-- One `datetime.strptime(...).strftime(...)` attempt: a failed parse is the
`ValueError` the surrounding `except ValueError` clause catches. -/
def tryStrptime (p : String → Option PyDateTime) (s : String) :
    Except PyErr String :=
  match p s with
  | some t => .ok (strftimeOut t)
  | none => .error .valueError

/-- An `except ValueError:` clause: catch exactly `ValueError` (logging it)
and continue with the rest of the function; other exceptions propagate. -/
def catchValueError (r : Except PyErr String) (rest : Except PyErr String) :
    Except PyErr String :=
  match r with
  | .error .valueError => rest
  | r => r

/-- Model of `Point.format_date` (point.py lines 76-101): try the primary
format; on `ValueError` try the fallback format; on `ValueError` again return
the raw stored string. -/
def format_date (date_time : String) : Except PyErr String :=
  catchValueError (tryStrptime strptimePrimary date_time)
    (catchValueError (tryStrptime strptimeFallback date_time)
      (.ok date_time))

/-- The method form `point.format_date()`. -/
def Point.formatDate (p : Point) : Except PyErr String :=
  format_date p.date_time

/-- In-cycle processing context: the engine state plus the number of
`sendMessage` calls attempted so far this cycle (used to index the send
oracle) and the log of notifications attempted so far, as (pilot, kind). -/
structure Cyc where
  st : BotState
  sendCalls : Nat
  emitted : List (String × Event)

/-- The per-point branch of `run` (bot.py lines 221-274): an `if`/`elif` chain
on `point.msg`.  `"OK"` sends a landing report and decrements the gauge;
`"HELP"`/`"MOVE"`/`"CUSTOM"` send an alert; `"START"` sends a resumed-tracking
report and increments the gauge; `"OFF"` sends a stopped report and decrements
the gauge; any other tag only logs at debug level.  Each send appends the
returned handle (possibly `None`) to the message list. -/
def processPoint (env : Env) (pilot : String) (c : Cyc) (p : Point) :
    Except PyErr Cyc :=
  if p.msg = "OK" then do
    let (msg, m) ← send_message env c.sendCalls c.st.metrics
    .ok { st := { c.st with
                  messages := c.st.messages ++ [msg],
                  metrics := { m with pilots_flying := m.pilots_flying - 1 } },
          sendCalls := c.sendCalls + 1,
          emitted := c.emitted ++ [(pilot, .landed)] }
  else if p.msg ∈ ["HELP", "MOVE", "CUSTOM"] then do
    let (msg, m) ← send_message env c.sendCalls c.st.metrics
    .ok { st := { c.st with messages := c.st.messages ++ [msg], metrics := m },
          sendCalls := c.sendCalls + 1,
          emitted := c.emitted ++ [(pilot, .alert)] }
  else if p.msg = "START" then do
    let (msg, m) ← send_message env c.sendCalls c.st.metrics
    .ok { st := { c.st with
                  messages := c.st.messages ++ [msg],
                  metrics := { m with pilots_flying := m.pilots_flying + 1 } },
          sendCalls := c.sendCalls + 1,
          emitted := c.emitted ++ [(pilot, .resumedTracking)] }
  else if p.msg = "OFF" then do
    let (msg, m) ← send_message env c.sendCalls c.st.metrics
    .ok { st := { c.st with
                  messages := c.st.messages ++ [msg],
                  metrics := { m with pilots_flying := m.pilots_flying - 1 } },
          sendCalls := c.sendCalls + 1,
          emitted := c.emitted ++ [(pilot, .trackingStopped)] }
  else
    .ok c

/-- The `pilots[pilot].last_point = unseen_points[-1]` dict update: replace the
stored pilot's `last_point` in place. -/
def setLastPoint (pilots : List (String × Pilot)) (name : String) (p : Point) :
    List (String × Pilot) :=
  pilots.map (fun kv =>
    if kv.1 == name then (kv.1, { kv.2 with last_point := p }) else kv)

/-- One iteration of the `for pilot, points in data.items()` loop of `run`
(bot.py lines 193-278).  If the pilot is not yet in the table, the code builds
`Pilot(name=pilot, last_point=Point(points[str(points["Count"])]))` — the dict
lookup may raise `KeyError`, and the `Pilot` dataclass call omits the required
`home` argument, so it raises `TypeError`; on (hypothetical) success a TookOff
message is sent and the gauge incremented.  Then the unseen points above the
stored watermark are computed, processed in ascending `unixTime` order, and
the watermark advanced to the last unseen point if any. -/
def processEntry (env : Env) (c : Cyc) (entry : String × PilotData) :
    Except PyErr Cyc := do
  let pilot := entry.1
  let points := entry.2
  let c ←
    if (c.st.pilots.lookup pilot).isSome then pure c
    else do
      let s ← match lookupSample points (toString points.count) with
        | some s => Except.ok s
        | none => Except.error .keyError
      let pl ← Pilot.dataclassInit (some pilot) (some (Point.ofSample s)) none
      let (msg, m) ← send_message env c.sendCalls c.st.metrics
      pure { st := { c.st with
                     pilots := c.st.pilots ++ [(pilot, pl)],
                     messages := c.st.messages ++ [msg],
                     metrics := { m with pilots_flying := m.pilots_flying + 1 } },
             sendCalls := c.sendCalls + 1,
             emitted := c.emitted ++ [(pilot, Event.tookOff)] }
  let w ← match c.st.pilots.lookup pilot with
    | some pl => Except.ok pl.last_point.unix_time
    | none => Except.error .keyError
  let unseen := unseenPoints points w
  let c ← unseen.foldlM (processPoint env pilot) c
  match unseen.getLast? with
  | some lastp =>
      pure { c with st := { c.st with pilots := setLastPoint c.st.pilots pilot lastp } }
  | none => pure c

/-- The day-rollover block of `run` (bot.py lines 183-188): when the stored
`last_update` date lies before today's UTC date, clear the pilot table, run
`delete_messages` over all outstanding handles, empty the handle list and
advance `last_update` to today.  Returns the new state and the delete requests
issued. -/
def dailyReset (env : Env) (st : BotState) :
    Except PyErr (BotState × List TgMessage) :=
  if st.last_update < env.today then do
    let reqs ← delete_messages env st.messages
    .ok ({ st with pilots := [], messages := [], last_update := env.today }, reqs)
  else .ok (st, [])

/-- Observable outcome of one cycle: the resulting engine state, the
notifications attempted (pilot, kind, in order) and the delete requests
issued during rollover. -/
structure CycleOut where
  st : BotState
  emitted : List (String × Event)
  deleteReqs : List TgMessage

/-- One iteration of the `while True:` loop of `run` (bot.py lines 182-280):
day rollover, fetch-and-decode, then the per-pilot loop over the decoded
snapshot.  `if data:` skips the loop when `get_json` returned `None`; the
empty-dict (falsy) case coincides with folding over the empty list.  The
final `time.sleep(SLEEP_TIME)` has no effect on engine state and is not
modelled; an `Except.error` outcome is an uncaught exception, which terminates
the loop, while `Except.ok` means the loop proceeds to the next cycle. -/
def runCycle (env : Env) (st : BotState) : Except PyErr CycleOut := do
  let (st1, delReqs) ← dailyReset env st
  let (data, m) := get_json env.fetch st1.metrics
  let st2 := { st1 with metrics := m }
  match data with
  | none => pure { st := st2, emitted := [], deleteReqs := delReqs }
  | some snap => do
      let c ← snap.foldlM (processEntry env) { st := st2, sendCalls := 0, emitted := [] }
      pure { st := c.st, emitted := c.emitted, deleteReqs := delReqs }

/-- The net effect of one notification kind on the `pilots_flying` gauge, read
off the `inc`/`dec` calls of the corresponding branch of `run`. -/
def gaugeDelta : Event → Int
  | .tookOff => 1
  | .landed => -1
  | .alert => 0
  | .resumedTracking => 1
  | .trackingStopped => -1
  | .ignored => 0

theorem send_message_timeout {env : Env} {n : Nat}
    (h : env.send n = .readTimeout ∨ env.send n = .timedOut) (m : Metrics) :
    send_message env n m =
      .ok (none, { m with errors_total := m.errors_total + 1 }) := by
  rcases h with h | h <;> simp [send_message, h]

theorem send_message_of_not_badRequest {env : Env} {n : Nat}
    (h : env.send n ≠ .badRequest) (m : Metrics) :
    ∃ msg m', send_message env n m = .ok (msg, m') := by
  cases hs : env.send n <;> simp [send_message, hs]
  exact absurd hs h

/-- The per-point branch of `run` equals the spec-side classification table:
an `ignored` tag leaves everything untouched, every other kind performs one
send, appends the resulting handle, logs the kind and moves the gauge by the
kind's delta. -/
theorem processPoint_char (env : Env) (pilot : String) (c : Cyc) (p : Point) :
    processPoint env pilot c p =
      if classifyMsgSpec p.msg = .ignored then .ok c
      else
        match send_message env c.sendCalls c.st.metrics with
        | .error e => .error e
        | .ok (msg, m) =>
            .ok { st := { c.st with
                          messages := c.st.messages ++ [msg],
                          metrics := { m with pilots_flying :=
                            m.pilots_flying + gaugeDelta (classifyMsgSpec p.msg) } },
                  sendCalls := c.sendCalls + 1,
                  emitted := c.emitted ++ [(pilot, classifyMsgSpec p.msg)] } := by
  by_cases h1 : p.msg = "OK"
  · cases hs : send_message env c.sendCalls c.st.metrics with
    | error e => simp [processPoint, classifyMsgSpec, h1, hs, Bind.bind, Except.bind]
    | ok r =>
        obtain ⟨msg, m⟩ := r
        simp [processPoint, classifyMsgSpec, h1, hs, gaugeDelta, sub_eq_add_neg, Bind.bind, Except.bind]
  · by_cases h2 : p.msg ∈ ["HELP", "MOVE", "CUSTOM"]
    · cases hs : send_message env c.sendCalls c.st.metrics with
      | error e => simp [processPoint, classifyMsgSpec, h1, h2, hs, Bind.bind, Except.bind]
      | ok r =>
          obtain ⟨msg, m⟩ := r
          simp [processPoint, classifyMsgSpec, h1, h2, hs, gaugeDelta, Bind.bind, Except.bind]
    · by_cases h3 : p.msg = "START"
      · cases hs : send_message env c.sendCalls c.st.metrics with
        | error e => simp [processPoint, classifyMsgSpec, h1, h2, h3, hs, Bind.bind, Except.bind]
        | ok r =>
            obtain ⟨msg, m⟩ := r
            simp [processPoint, classifyMsgSpec, h1, h2, h3, hs, gaugeDelta, Bind.bind, Except.bind]
      · by_cases h4 : p.msg = "OFF"
        · cases hs : send_message env c.sendCalls c.st.metrics with
          | error e => simp [processPoint, classifyMsgSpec, h1, h2, h3, h4, hs, Bind.bind, Except.bind]
          | ok r =>
              obtain ⟨msg, m⟩ := r
              simp [processPoint, classifyMsgSpec, h1, h2, h3, h4, hs, gaugeDelta,
                sub_eq_add_neg, Bind.bind, Except.bind]
        · simp [processPoint, classifyMsgSpec, h1, h2, h3, h4]

/-- Folding the per-point branch over any point list raises nothing and leaves
the pilot table untouched, as long as no send answers `BadRequest`. -/
theorem foldlM_processPoint_ok {env : Env} (pilot : String)
    (hs : ∀ n, env.send n ≠ .badRequest) :
    ∀ (l : List Point) (c : Cyc),
      ∃ c', l.foldlM (processPoint env pilot) c = .ok c' ∧
        c'.st.pilots = c.st.pilots := by
  intro l
  induction l with
  | nil => intro c; exact ⟨c, rfl, rfl⟩
  | cons p rest ih =>
      intro c
      rw [List.foldlM_cons, processPoint_char]
      by_cases hk : classifyMsgSpec p.msg = .ignored
      · simpa [hk] using ih c
      · obtain ⟨msg, m, hsend⟩ := send_message_of_not_badRequest (hs c.sendCalls)
          c.st.metrics
        obtain ⟨c', hfold, hpilots⟩ := ih
          { st := { c.st with
                    messages := c.st.messages ++ [msg],
                    metrics := { m with pilots_flying :=
                      m.pilots_flying + gaugeDelta (classifyMsgSpec p.msg) } },
            sendCalls := c.sendCalls + 1,
            emitted := c.emitted ++ [(pilot, classifyMsgSpec p.msg)] }
        exact ⟨c', by simp [hk, hsend, hfold, Bind.bind, Except.bind], hpilots⟩

theorem delete_messages_eq (env : Env) (msgs : List (Option TgMessage)) :
    delete_messages env msgs = .ok (msgs.filterMap id) := by
  induction msgs with
  | nil => rfl
  | cons msg rest ih =>
      cases msg with
      | none => simp [delete_messages, deleteIter, catchDeleteErrs, ih, Bind.bind, Except.bind]
      | some m =>
          by_cases h : env.delete m <;>
            simp [delete_messages, deleteIter, catchDeleteErrs, h, ih, Bind.bind, Except.bind]

theorem lookup_setLastPoint (ps : List (String × Pilot)) (name : String)
    (q : Point) :
    (setLastPoint ps name q).lookup name =
      (ps.lookup name).map (fun pl => { pl with last_point := q }) := by
  induction ps with
  | nil => rfl
  | cons kv rest ih =>
      obtain ⟨k, pl⟩ := kv
      simp only [setLastPoint, List.map_cons] at ih ⊢
      by_cases h : (k == name) = true
      · rw [if_pos h]
        have hk : k = name := by simpa using h
        subst hk
        simp [List.lookup]
      · rw [if_neg h]
        have hk : ¬k = name := by simpa using h
        have h2 : (name == k) = false := by simp [Ne.symm hk]
        simp [List.lookup, h2] at ih ⊢
        exact ih

/-- The body of the per-pilot loop, specialised to a pilot already present in
the table: process the unseen points, then advance the watermark to the last
of them when there are any. -/
theorem processEntry_present {env : Env} {c : Cyc} {pilot : String} {pl : Pilot}
    (pd : PilotData) (hp : c.st.pilots.lookup pilot = some pl) :
    processEntry env c (pilot, pd) =
      ((unseenPoints pd pl.last_point.unix_time).foldlM (processPoint env pilot)
          c).bind
        (fun c' =>
          match (unseenPoints pd pl.last_point.unix_time).getLast? with
          | some lastp =>
              .ok { c' with st := { c'.st with
                      pilots := setLastPoint c'.st.pilots pilot lastp } }
          | none => .ok c') := by
  simp [processEntry, hp, Bind.bind, Except.bind, pure, Except.pure]

theorem pairwise_le_getLast {l : List Point} {q : Point}
    (hs : l.Pairwise (fun a b => a.unix_time ≤ b.unix_time))
    (hq : l.getLast? = some q) :
    ∀ r ∈ l, r.unix_time ≤ q.unix_time := by
  induction l with
  | nil => simp at hq
  | cons a rest ih =>
      cases rest with
      | nil =>
          simp [List.getLast?] at hq
          simp [hq]
      | cons b rest' =>
          rw [List.getLast?_cons_cons] at hq
          rw [List.pairwise_cons] at hs
          intro r hr
          rcases List.mem_cons.mp hr with hra | hrt
          · subst hra
            obtain ⟨hne, he⟩ :=
              List.mem_getLast?_eq_getLast (show q ∈ (b :: rest').getLast? from hq)
            have hqmem : q ∈ b :: rest' := by
              rw [he]; exact List.getLast_mem hne
            exact hs.1 q hqmem
          · exact ih hs.2 hq r hrt

/-- Folding the per-point branch when every send attempt times out: nothing
is raised, every message-producing point is still attempted in order, each
failed send appends `None` to the handle list and bumps the error counter
once, and the pilot table and send counter are otherwise untouched. -/
theorem foldlM_processPoint_timeout {env : Env} (pilot : String)
    (ht : ∀ n, env.send n = .readTimeout ∨ env.send n = .timedOut) :
    ∀ (l : List Point) (c : Cyc),
      ∃ c', l.foldlM (processPoint env pilot) c = .ok c' ∧
        c'.st.pilots = c.st.pilots ∧
        c'.st.messages = c.st.messages ++
          List.replicate (l.countP (fun p => classifyMsgSpec p.msg != .ignored))
            none ∧
        c'.st.metrics.errors_total = c.st.metrics.errors_total +
          l.countP (fun p => classifyMsgSpec p.msg != .ignored) ∧
        c'.st.metrics.messages_send_total = c.st.metrics.messages_send_total ∧
        c'.emitted = c.emitted ++ l.filterMap (fun p =>
          if classifyMsgSpec p.msg = .ignored then none
          else some (pilot, classifyMsgSpec p.msg)) := by
  intro l
  induction l with
  | nil => intro c; exact ⟨c, rfl, rfl, by simp, by simp, rfl, by simp⟩
  | cons p rest ihl =>
      intro c
      rw [List.foldlM_cons, processPoint_char]
      by_cases hk : classifyMsgSpec p.msg = .ignored
      · obtain ⟨c', h1, h2, h3, h4, h5, h6⟩ := ihl c
        refine ⟨c', by rw [if_pos hk]; exact h1, h2, ?_, ?_, h5, ?_⟩
        · simpa [List.countP_cons, hk] using h3
        · simpa [List.countP_cons, hk] using h4
        · simpa [List.filterMap_cons, hk] using h6
      · have hsend := send_message_timeout (ht c.sendCalls) c.st.metrics
        obtain ⟨c', h1, h2, h3, h4, h5, h6⟩ := ihl
          { st := { c.st with
                    messages := c.st.messages ++ [none],
                    metrics := { c.st.metrics with
                      errors_total := c.st.metrics.errors_total + 1,
                      pilots_flying := c.st.metrics.pilots_flying +
                        gaugeDelta (classifyMsgSpec p.msg) } },
            sendCalls := c.sendCalls + 1,
            emitted := c.emitted ++ [(pilot, classifyMsgSpec p.msg)] }
        have hc : List.countP (fun q => classifyMsgSpec q.msg != Event.ignored)
            (p :: rest) =
            List.countP (fun q => classifyMsgSpec q.msg != Event.ignored) rest
              + 1 := by
          simp [List.countP_cons, hk]
        refine ⟨c', by rw [if_neg hk, hsend]; exact h1, by simpa using h2, ?_, ?_,
          by simpa using h5, ?_⟩
        · rw [hc, List.replicate_succ]
          have h3' : c'.st.messages = c.st.messages ++
              none :: List.replicate
                (List.countP (fun q => classifyMsgSpec q.msg != Event.ignored)
                  rest) none := by
            simpa using h3
          exact h3'
        · rw [hc]
          have h4' : c'.st.metrics.errors_total =
              c.st.metrics.errors_total + 1 +
                List.countP (fun q => classifyMsgSpec q.msg != Event.ignored)
                  rest := by
            simpa using h4
          omega
        · have hf : List.filterMap (fun q =>
              if classifyMsgSpec q.msg = Event.ignored then none
              else some (pilot, classifyMsgSpec q.msg)) (p :: rest) =
              (pilot, classifyMsgSpec p.msg) :: List.filterMap (fun q =>
                if classifyMsgSpec q.msg = Event.ignored then none
                else some (pilot, classifyMsgSpec q.msg)) rest := by
            simp [List.filterMap_cons, hk]
          rw [hf]
          have h6' : c'.emitted = c.emitted ++
              (pilot, classifyMsgSpec p.msg) :: List.filterMap (fun q =>
                if classifyMsgSpec q.msg = Event.ignored then none
                else some (pilot, classifyMsgSpec q.msg)) rest := by
            simpa using h6
          exact h6'

/-- Test fixture: the `"0"` sample of the spec's Han_Solo scenario — tag `OK`
at unixTime 200 (field values as in the repository's test fixture). -/
def sampleHan0 : Sample :=
  { cumDist := "1.36", takeOffDist := "0.95", flightTime := "0h17",
    avgSpeed := "4.78", legSpeed := "6.31", legDist := "0.95",
    lat := "46.04947", lng := "6.68662", alt := 1721, msg := "OK",
    dateTime := "2022-04-15T11:52:48+0000", unixTime := 200, spotId := 2 }

/-- Test fixture: the `"1"` sample of the spec's Han_Solo scenario — tag
`UNLIMITED-TRACK` at unixTime 100. -/
def sampleHan1 : Sample :=
  { cumDist := "0.41", takeOffDist := "0.40", flightTime := "0h03",
    avgSpeed := "5.12", legSpeed := "5.80", legDist := "0.41",
    lat := "46.03917", lng := "6.67210", alt := 1650,
    msg := "UNLIMITED-TRACK", dateTime := "2022-04-15T09:00:00+0000",
    unixTime := 100, spotId := 1 }

/-- Test fixture: Han_Solo's snapshot entry, `Count = 1`. -/
def pdHan : PilotData :=
  { samples := [("0", sampleHan0), ("1", sampleHan1)], count := 1 }

/-- Test fixture: all metrics at zero. -/
def metrics0 : Metrics :=
  { errors_total := 0, messages_send_total := 0, pilots_flying := 0,
    requests_total := 0 }

/-- Test fixture: the startup engine state. -/
def st0 : BotState :=
  { pilots := [], messages := [], last_update := 0, metrics := metrics0 }

/-- Test fixture: environment in which the fetch decodes the Han_Solo
snapshot and every send succeeds. -/
def envAllSent : Env :=
  { today := 0, fetch := .decoded [("Han_Solo", pdHan)],
    send := fun _ => .sent ⟨1, 1⟩, delete := fun _ => false }

/-- Test fixture: startup in-cycle context. -/
def cyc0 : Cyc := { st := st0, sendCalls := 0, emitted := [] }

/-- Test fixture: Han_Solo already stored in the table, watermark at
unixTime 100 (the `"1"` sample). -/
def pilotHan : Pilot :=
  { name := "Han_Solo", last_point := Point.ofSample sampleHan1, home := "" }

/-- Test fixture: engine state holding `pilotHan`. -/
def stWithHan : BotState :=
  { pilots := [("Han_Solo", pilotHan)], messages := [], last_update := 0,
    metrics := metrics0 }

/-- Test fixture: in-cycle context over `stWithHan`. -/
def cycWithHan : Cyc := { st := stWithHan, sendCalls := 0, emitted := [] }

/-- Concrete evaluation: with the watermark at unixTime 100, the Han_Solo
snapshot has exactly one unseen point, the `OK` sample at unixTime 200
(`mergeSort` is defined by well-founded recursion, so the kernel cannot
evaluate it directly; the singleton case is handled by its lemma). -/
theorem unseenPoints_pdHan :
    unseenPoints pdHan pilotHan.last_point.unix_time =
      [Point.ofSample sampleHan0] := by
  have hfm : ((pdHan.samples.filter (fun kv =>
      kv.1 != "Count" &&
        decide (pilotHan.last_point.unix_time < kv.2.unixTime))).map
      (fun kv => Point.ofSample kv.2)) = [Point.ofSample sampleHan0] := by
    decide
  unfold unseenPoints
  rw [hfm, List.mergeSort_singleton]

/-- C1.  For a pilot already present in the table, the unseen-point
computation returns exactly the decoded samples other than the `"Count"` key
whose `unixTime` is strictly greater than the stored
`last_point.unix_time` (a permutation of that filtered list: nothing added,
nothing dropped), sorted ascending by `unixTime`; and after the entry is
processed, `last_point` is an unseen point of maximal `unixTime` when the
unseen set is non-empty, and is unchanged when it is empty.  Sends are
assumed not to answer `BadRequest` (an uncaught `BadRequest`, claim C6's
concern, would abort the entry). -/
theorem unseen_points_exact_sorted_and_watermark
    (env : Env) (c : Cyc) (pilot : String) (pl : Pilot) (pd : PilotData)
    (hp : c.st.pilots.lookup pilot = some pl)
    (hs : ∀ n, env.send n ≠ .badRequest) :
    (unseenPoints pd pl.last_point.unix_time).Perm
        ((pd.samples.filter (fun kv =>
            kv.1 != "Count" &&
              decide (pl.last_point.unix_time < kv.2.unixTime))).map
          (fun kv => Point.ofSample kv.2))
    ∧ (unseenPoints pd pl.last_point.unix_time).Pairwise
        (fun a b => a.unix_time ≤ b.unix_time)
    ∧ ∃ c', processEntry env c (pilot, pd) = .ok c' ∧
        (unseenPoints pd pl.last_point.unix_time = [] →
          c'.st.pilots.lookup pilot = some pl) ∧
        (unseenPoints pd pl.last_point.unix_time ≠ [] →
          ∃ q ∈ unseenPoints pd pl.last_point.unix_time,
            (∀ r ∈ unseenPoints pd pl.last_point.unix_time,
              r.unix_time ≤ q.unix_time) ∧
            c'.st.pilots.lookup pilot = some { pl with last_point := q }) := by
  have hsorted : (unseenPoints pd pl.last_point.unix_time).Pairwise
      (fun a b => a.unix_time ≤ b.unix_time) := by
    have h := @List.sorted_mergeSort Point
      (fun a b => decide (a.unix_time ≤ b.unix_time))
      (fun a b c2 hab hbc => by
        simp only [decide_eq_true_eq] at hab hbc ⊢
        exact le_trans hab hbc)
      (fun a b => by
        simp only [Bool.or_eq_true, decide_eq_true_eq]
        exact le_total a.unix_time b.unix_time)
      ((pd.samples.filter (fun kv =>
          kv.1 != "Count" &&
            decide (pl.last_point.unix_time < kv.2.unixTime))).map
        (fun kv => Point.ofSample kv.2))
    exact h.imp (fun hab => by simpa using hab)
  refine ⟨?_, hsorted, ?_⟩
  · unfold unseenPoints
    exact List.mergeSort_perm _ _
  · obtain ⟨c1, hfold, hpilots⟩ :=
      foldlM_processPoint_ok pilot hs (unseenPoints pd pl.last_point.unix_time) c
    rw [processEntry_present pd hp, hfold]
    cases hgl : (unseenPoints pd pl.last_point.unix_time).getLast? with
    | none =>
        have hnil : unseenPoints pd pl.last_point.unix_time = [] := by
          by_contra hne
          rw [List.getLast?_eq_getLast _ hne] at hgl
          exact Option.noConfusion hgl
        refine ⟨c1, by simp [Except.bind, hgl], fun _ => ?_,
          fun hne => absurd hnil hne⟩
        rw [hpilots]; exact hp
    | some q =>
        have hne : unseenPoints pd pl.last_point.unix_time ≠ [] := by
          intro h0
          rw [h0] at hgl
          simp at hgl
        refine ⟨{ c1 with st := { c1.st with
            pilots := setLastPoint c1.st.pilots pilot q } },
          by simp [Except.bind, hgl], fun h0 => absurd h0 hne, fun _ => ?_⟩
        refine ⟨q, ?_, pairwise_le_getLast hsorted hgl, ?_⟩
        · obtain ⟨h1, h2⟩ :=
            List.mem_getLast?_eq_getLast (show q ∈ _ from hgl)
          rw [h2]; exact List.getLast_mem h1
        · show (setLastPoint c1.st.pilots pilot q).lookup pilot = _
          rw [lookup_setLastPoint, hpilots, hp]
          rfl

/-- C1 witness: Han_Solo is stored with watermark 100; the Han_Solo snapshot
has one unseen point (the OK sample at unixTime 200); after the entry,
`last_point` is that sample. -/
theorem unseen_points_exact_sorted_and_watermark_witness :
    stWithHan.pilots.lookup "Han_Solo" = some pilotHan ∧
    (∀ n, envAllSent.send n ≠ .badRequest) ∧
    ∃ c', processEntry envAllSent cycWithHan ("Han_Solo", pdHan) = .ok c' ∧
      c'.st.pilots.lookup "Han_Solo" =
        some { pilotHan with last_point := Point.ofSample sampleHan0 } := by
  refine ⟨rfl, fun n => by simp [envAllSent], ?_⟩
  have hu := unseenPoints_pdHan
  obtain ⟨-, -, c', hok, -, hupd⟩ :=
    unseen_points_exact_sorted_and_watermark envAllSent cycWithHan "Han_Solo"
      pilotHan pdHan rfl (fun n => by simp [envAllSent])
  obtain ⟨q, hq, -, heq⟩ := hupd (by rw [hu]; simp)
  have hq' : q = Point.ofSample sampleHan0 := by
    rw [hu] at hq
    simpa using hq
  exact ⟨c', hok, by rw [← hq']; exact heq⟩

/-- C2 (the claim describes the intended behavior; the code raises).  When a
pilot name is not yet in the table, `run` evaluates
`Pilot(name=pilot, last_point=Point(points[str(points["Count"])]))`; the
`Pilot` dataclass of `pilot.py` also requires the `home` argument, which this
call omits, so the entry raises `TypeError` instead of creating the pilot,
sending the TookOff notification and incrementing the gauge. -/
theorem new_pilot_creation_raises_typeError
    (env : Env) (c : Cyc) (pilot : String) (pd : PilotData) (s : Sample)
    (hnew : c.st.pilots.lookup pilot = none)
    (hcount : lookupSample pd (toString pd.count) = some s) :
    processEntry env c (pilot, pd) = .error .typeError := by
  simp [processEntry, hnew, hcount, Pilot.dataclassInit, Bind.bind,
    Except.bind, pure, Except.pure]

/-- C2 witness: the first sighting of Han_Solo raises `TypeError` (the sample
keyed by `str(Count) = "1"` is found first, then the `Pilot` call fails). -/
theorem new_pilot_creation_raises_typeError_witness :
    st0.pilots.lookup "Han_Solo" = none ∧
    lookupSample pdHan (toString pdHan.count) = some sampleHan1 ∧
    processEntry envAllSent cyc0 ("Han_Solo", pdHan) = .error .typeError :=
  ⟨rfl, rfl,
    new_pilot_creation_raises_typeError envAllSent cyc0 "Han_Solo" pdHan
      sampleHan1 rfl rfl⟩

/-- Test fixture: rollover-day environment (the stored date 0 lies before
today = 1); the fetch then times out. -/
def envC4 : Env :=
  { today := 1, fetch := .timeoutError, send := fun _ => .timedOut,
    delete := fun _ => false }

/-- Test fixture: mid-day state before a rollover — one stored pilot, three
outstanding entries (two real handles around a failed send), gauge at 2. -/
def stC4 : BotState :=
  { pilots := [("Han_Solo", pilotHan)],
    messages := [some ⟨5, 11⟩, none, some ⟨5, 12⟩],
    last_update := 0,
    metrics := { errors_total := 1, messages_send_total := 3,
                 pilots_flying := 2, requests_total := 4 } }

/-- Test fixture: environment whose fetch decodes the Han_Solo snapshot and
whose every send answers `BadRequest`. -/
def envBadSend : Env :=
  { today := 0, fetch := .decoded [("Han_Solo", pdHan)],
    send := fun _ => .badRequest, delete := fun _ => false }

/-- Test fixture: environment whose fetch decodes the Han_Solo snapshot and
whose every send times out. -/
def envTimeoutSend : Env :=
  { today := 0, fetch := .decoded [("Han_Solo", pdHan)],
    send := fun _ => .timedOut, delete := fun _ => false }

/-- Test fixture: environment whose fetch fails with an HTTP error. -/
def envFetchFail : Env :=
  { today := 0, fetch := .httpError, send := fun _ => .sent ⟨1, 1⟩,
    delete := fun _ => false }

/-- Test fixture: environment whose fetch times out. -/
def envFetchTimeout : Env :=
  { today := 0, fetch := .timeoutError, send := fun _ => .sent ⟨1, 1⟩,
    delete := fun _ => false }

/-- C3.  Event classification is a pure total function of the point's tag
(String equality, hence case-sensitive), given by the spec's table
`classifyMsgSpec`: `OK` yields the Landed message and gauge decrement,
`HELP`/`MOVE`/`CUSTOM` the Alert message, `START` the ResumedTracking message
and gauge increment, `OFF` the TrackingStopped message and gauge decrement,
and every other tag is Ignored — no send is attempted and the processing
context is returned untouched (the point is only logged at debug level). -/
theorem classification_pure_total_function (env : Env) (pilot : String)
    (c : Cyc) (p : Point) :
    processPoint env pilot c p =
      if classifyMsgSpec p.msg = .ignored then .ok c
      else (send_message env c.sendCalls c.st.metrics).map (fun r =>
        { st := { c.st with
                  messages := c.st.messages ++ [r.1],
                  metrics := { r.2 with pilots_flying :=
                    r.2.pilots_flying + gaugeDelta (classifyMsgSpec p.msg) } },
          sendCalls := c.sendCalls + 1,
          emitted := c.emitted ++ [(pilot, classifyMsgSpec p.msg)] }) := by
  rw [processPoint_char]
  by_cases hk : classifyMsgSpec p.msg = .ignored
  · simp [hk]
  · simp only [if_neg hk]
    cases hs : send_message env c.sendCalls c.st.metrics with
    | error e => simp [Except.map]
    | ok r =>
        obtain ⟨msg, m⟩ := r
        simp [Except.map]

/-- C4 counterexample.  On a rollover the code clears the pilot table, issues
a delete request for both real handles, clears the handle list and advances
the date — but it leaves the metrics record, in particular the
`pilots_flying` gauge (here at 2), untouched: no `set(0)` exists anywhere in
`run`, refuting the claim's "resets the pilots-flying gauge to zero". -/
theorem rollover_gauge_not_reset :
    dailyReset envC4 stC4 =
      .ok ({ pilots := [], messages := [], last_update := 1,
             metrics := stC4.metrics }, [⟨5, 11⟩, ⟨5, 12⟩])
    ∧ stC4.metrics.pilots_flying ≠ 0 := by
  constructor
  · rfl
  · decide

/-- C4 as amended.  When the stored date lies before today, the rollover
block clears the pilot table, issues a delete request for every real handle
in the outstanding list (in order), clears the list and advances the
rollover date; the metrics — including the `pilots_flying` gauge — are left
unchanged. -/
theorem rollover_clears_state_gauge_unchanged (env : Env) (st : BotState)
    (h : st.last_update < env.today) :
    dailyReset env st =
      .ok ({ pilots := [], messages := [], last_update := env.today,
             metrics := st.metrics }, st.messages.filterMap id) := by
  unfold dailyReset
  rw [if_pos h, delete_messages_eq]
  rfl

/-- C4 witness: the amended rollover property evaluated on the concrete
rollover-day fixture. -/
theorem rollover_clears_state_gauge_unchanged_witness :
    stC4.last_update < envC4.today ∧
    dailyReset envC4 stC4 =
      .ok ({ pilots := [], messages := [], last_update := envC4.today,
             metrics := stC4.metrics }, stC4.messages.filterMap id) :=
  ⟨by decide, rollover_clears_state_gauge_unchanged envC4 stC4 (by decide)⟩

/-- C5 (the claim describes the intended scenario; the code raises).  The
first cycle that sees the Han_Solo snapshot ends in `TypeError` — the
`Pilot(name=..., last_point=...)` call of `run` omits the `home` argument the
`Pilot` dataclass requires — so no TookOff message is emitted, no
`last_point` is stored, and the scenario's second cycle is never reached. -/
theorem scenario_first_sighting_raises_typeError :
    runCycle envAllSent st0 = .error .typeError := by
  rfl

/-- C6 counterexample.  `send_message` catches only the two timeout
exceptions; a `BadRequest` answer to a send propagates out of the per-pilot
loop and aborts the cycle (an uncaught exception also terminates the
polling loop), refuting "a send failure of kind ... bad-request is caught
per-message". -/
theorem badRequest_send_aborts_cycle :
    runCycle envBadSend stWithHan = .error .badRequest := by
  have hpe : ∀ st' : BotState, st'.pilots = [("Han_Solo", pilotHan)] →
      processEntry envBadSend { st := st', sendCalls := 0, emitted := [] }
        ("Han_Solo", pdHan) = .error .badRequest := by
    intro st' hps
    have hp : st'.pilots.lookup "Han_Solo" = some pilotHan := by
      rw [hps]; rfl
    rw [processEntry_present pdHan hp, unseenPoints_pdHan]
    rw [List.foldlM_cons, processPoint_char]
    have hk : classifyMsgSpec (Point.ofSample sampleHan0).msg ≠ .ignored := by
      decide
    rw [if_neg hk]
    have hsend : send_message envBadSend 0 st'.metrics = .error .badRequest := by
      rfl
    rw [hsend]
    rfl
  have h1 := hpe
    { stWithHan with metrics :=
      { stWithHan.metrics with
        requests_total := stWithHan.metrics.requests_total + 1 } } rfl
  have h2 : runCycle envBadSend stWithHan =
      (List.foldlM (processEntry envBadSend)
        { st := { stWithHan with metrics :=
            { stWithHan.metrics with
              requests_total := stWithHan.metrics.requests_total + 1 } },
          sendCalls := 0, emitted := [] } [("Han_Solo", pdHan)]).bind
        (fun c =>
          Except.ok (CycleOut.mk c.st c.emitted ([] : List TgMessage))) :=
    rfl
  rw [h2, List.foldlM_cons, h1]
  rfl

/-- C6 as amended.  Timeout-kind send failures (read timeout, timed out) are
caught per-message: the entry still completes normally, every
message-producing unseen point is attempted in order (the emitted log covers
them all), each failure appends `None` to the handle list and bumps the error
counter by one, and neither the remaining points nor the loop are aborted.
`BadRequest`, by contrast, propagates (see the counterexample). -/
theorem timeout_send_failures_caught_processing_continues
    (env : Env) (c : Cyc) (pilot : String) (pl : Pilot) (pd : PilotData)
    (hp : c.st.pilots.lookup pilot = some pl)
    (ht : ∀ n, env.send n = .readTimeout ∨ env.send n = .timedOut) :
    ∃ c', processEntry env c (pilot, pd) = .ok c' ∧
      c'.st.messages = c.st.messages ++
        List.replicate ((unseenPoints pd pl.last_point.unix_time).countP
          (fun q => classifyMsgSpec q.msg != .ignored)) none ∧
      c'.st.metrics.errors_total = c.st.metrics.errors_total +
        (unseenPoints pd pl.last_point.unix_time).countP
          (fun q => classifyMsgSpec q.msg != .ignored) ∧
      c'.emitted = c.emitted ++
        (unseenPoints pd pl.last_point.unix_time).filterMap (fun q =>
          if classifyMsgSpec q.msg = .ignored then none
          else some (pilot, classifyMsgSpec q.msg)) := by
  obtain ⟨c1, hfold, hpil, hmsg, herr, hsnd, hemit⟩ :=
    foldlM_processPoint_timeout pilot ht
      (unseenPoints pd pl.last_point.unix_time) c
  rw [processEntry_present pd hp, hfold]
  cases hgl : (unseenPoints pd pl.last_point.unix_time).getLast? with
  | none => exact ⟨c1, by simp [Except.bind, hgl], hmsg, herr, hemit⟩
  | some q =>
      exact ⟨{ c1 with st := { c1.st with
          pilots := setLastPoint c1.st.pilots pilot q } },
        by simp [Except.bind, hgl], hmsg, herr, hemit⟩

/-- C6 witness: with Han_Solo stored and every send timing out, the entry for
the Han_Solo snapshot completes, appends one `None` handle, counts one error
and still logs the Landed attempt. -/
theorem timeout_send_failures_caught_witness :
    cycWithHan.st.pilots.lookup "Han_Solo" = some pilotHan ∧
    (∀ n, envTimeoutSend.send n = .readTimeout ∨
      envTimeoutSend.send n = .timedOut) ∧
    ∃ c', processEntry envTimeoutSend cycWithHan ("Han_Solo", pdHan) = .ok c' ∧
      c'.st.messages = [none] ∧
      c'.st.metrics.errors_total = 1 ∧
      c'.emitted = [("Han_Solo", Event.landed)] := by
  refine ⟨rfl, fun n => Or.inr rfl, ?_⟩
  obtain ⟨c', hok, hmsg, herr, hemit⟩ :=
    timeout_send_failures_caught_processing_continues envTimeoutSend cycWithHan
      "Han_Solo" pilotHan pdHan rfl (fun n => Or.inr rfl)
  have hcnt : (unseenPoints pdHan pilotHan.last_point.unix_time).countP
      (fun q => classifyMsgSpec q.msg != Event.ignored) = 1 := by
    rw [unseenPoints_pdHan]; decide
  have hfm2 : (unseenPoints pdHan pilotHan.last_point.unix_time).filterMap
      (fun q => if classifyMsgSpec q.msg = Event.ignored then none
        else some ("Han_Solo", classifyMsgSpec q.msg)) =
      [("Han_Solo", Event.landed)] := by
    rw [unseenPoints_pdHan]; decide
  rw [hcnt] at hmsg herr
  rw [hfm2] at hemit
  exact ⟨c', hok, by simpa using hmsg, by simpa using herr,
    by simpa using hemit⟩

/-- Raw JSON values as `r.json()` returns them.  Floating-point numbers are
carried as their source text: the engine only ever interpolates them into
message text, never computes with them. -/
inductive Json where
  | str (s : String)
  | int (n : Int)
  | float (text : String)
  | bool (b : Bool)
  | null
  | arr (elems : List Json)
  | obj (fields : List (String × Json))

/-- A float literal denotes zero exactly when its mantissa (the digits before
any exponent marker) has no non-zero digit. -/
def decimalTextIsZero (t : String) : Bool :=
  ((t.toList.takeWhile (fun c => !(c == 'e') && !(c == 'E'))).filter
    Char.isDigit).all (fun c => c == '0')

/-- Python truthiness of the decoded value, for the `if data:` guard
(bot.py 192): containers and strings are truthy when non-empty, numbers when
non-zero, `None` and `False` are falsy. -/
def Json.truthy : Json → Bool
  | .str s => !(s == "")
  | .int n => !(n == 0)
  | .float t => !(decimalTextIsZero t)
  | .bool b => b
  | .null => false
  | .arr elems => !elems.isEmpty
  | .obj fields => !fields.isEmpty

/-- The `data.items()` call (bot.py 193): the key-value pairs of a JSON
object in document order; every other JSON value lacks the `items` attribute
and raises `AttributeError`. -/
def Json.items : Json → Except PyErr (List (String × Json))
  | .obj fields => .ok fields
  | _ => .error .attributeError

/-- A string subscript `v[k]` (bot.py 197 and 216; point.py 47-59): on an
object, the value at the key, or `KeyError` when the key is absent; every
other JSON value raises `TypeError` for a string subscript (strings and
lists demand integer indices, numbers and `None` are not subscriptable at
all). -/
def Json.subscript (v : Json) (k : String) : Except PyErr Json :=
  match v with
  | .obj fields =>
      match fields.find? (fun kv => kv.1 == k) with
      | some kv => .ok kv.2
      | none => .error .keyError
  | _ => .error .typeError

/-- Python's `str(...)`, as applied to the retrieved `Count` value
(bot.py 197): strings stay themselves and scalars render as Python renders
them.  Containers are abbreviated here: the engine uses the result only as a
dict key, and a container rendering — abbreviated or Python's own — is a key
of the sample dict in neither case. -/
def pyStr : Json → String
  | .str s => s
  | .int n => toString n
  | .float t => t
  | .bool b => if b then "True" else "False"
  | .null => "None"
  | .arr _ => "[...]"
  | .obj _ => "{...}"

/-- Reads a wire integer field of a sample.  `unixTime`, `Alt` and `spotId`
are JSON integers on the wire.  Python stores any value unchecked: a
non-integer `unixTime` would raise `TypeError` at its first watermark
comparison in `run`, which this model reports at construction instead;
`Alt` and `spotId` are never read again, so payloads deviating on them are
outside the theorems stated below. -/
def expectInt : Json → Except PyErr Int
  | .int n => .ok n
  | _ => .error .typeError

/-- Model of `Point.__init__(json_dict)` on a raw JSON value (point.py
47-59): thirteen subscript reads in source order (missing key: `KeyError`;
subscripting a non-object: `TypeError`).  Python stores the values without
type checks; the string-carried fields keep their rendered text — a string
value stays itself, so every comparison the engine performs on them (the
`Msg` tag chain) is preserved — and the three integer fields are read as
integers (see `expectInt`). -/
def Point.fromJson (v : Json) : Except PyErr Point := do
  let cumDist ← v.subscript "cumDist"
  let takeOffDist ← v.subscript "takeOffDist"
  let flightTime ← v.subscript "flightTime"
  let avgSpeed ← v.subscript "AvgSpeed"
  let legSpeed ← v.subscript "LegSpeed"
  let legDist ← v.subscript "LegDist"
  let lat ← v.subscript "Lat"
  let lng ← v.subscript "Lng"
  let alt ← v.subscript "Alt"
  let msg ← v.subscript "Msg"
  let dateTime ← v.subscript "DateTime"
  let unixTime ← v.subscript "unixTime"
  let spotId ← v.subscript "spotId"
  let altI ← expectInt alt
  let utI ← expectInt unixTime
  let sidI ← expectInt spotId
  .ok { cum_dist := pyStr cumDist
        take_off_dist := pyStr takeOffDist
        flight_time := pyStr flightTime
        avg_speed := pyStr avgSpeed
        leg_speed := pyStr legSpeed
        leg_dist := pyStr legDist
        lat := pyStr lat
        lng := pyStr lng
        alt := altI
        msg := pyStr msg
        date_time := pyStr dateTime
        unix_time := utI
        spot_id := sidI }

/-- The `unseen_points` comprehension over raw sample values (bot.py
211-217): iterate the items in order; skip the `"Count"` key (that condition
comes first, so the Count value itself is never subscripted); read
`v["unixTime"]` (`KeyError`/`TypeError` on bad shapes) and compare it with
the integer watermark — `TypeError` unless it is an integer itself; build a
`Point` from each sample above the watermark.  An exception propagates at
the first failing item, as in the comprehension. -/
def filterUnseenRaw (w : Int) :
    List (String × Json) → Except PyErr (List Point)
  | [] => .ok []
  | (k, v) :: rest =>
      if k == "Count" then filterUnseenRaw w rest
      else do
        let ut ← v.subscript "unixTime"
        match ut with
        | .int n =>
            if w < n then do
              let p ← Point.fromJson v
              let ps ← filterUnseenRaw w rest
              .ok (p :: ps)
            else filterUnseenRaw w rest
        | _ => .error .typeError

/-- One iteration of the per-pilot loop of `run` (bot.py 193-278) on a raw
snapshot entry: the same control flow as `processEntry`, with every dict
access performed on the raw JSON value, so malformed shapes raise where
Python raises.  For a new pilot, `points["Count"]` and `points[str(count)]`
are read (raising on bad shapes) and the `Pilot` dataclass call — still
missing `home` — raises `TypeError`; then the unseen comprehension runs over
the raw items, the kept points are sorted, processed, and the watermark
advanced as in the typed model. -/
def processEntryRaw (env : Env) (c : Cyc) (entry : String × Json) :
    Except PyErr Cyc := do
  let pilot := entry.1
  let points := entry.2
  let c ←
    if (c.st.pilots.lookup pilot).isSome then pure c
    else do
      let cnt ← points.subscript "Count"
      let sraw ← points.subscript (pyStr cnt)
      let p ← Point.fromJson sraw
      let pl ← Pilot.dataclassInit (some pilot) (some p) none
      let (msg, m) ← send_message env c.sendCalls c.st.metrics
      pure { st := { c.st with
                     pilots := c.st.pilots ++ [(pilot, pl)],
                     messages := c.st.messages ++ [msg],
                     metrics := { m with pilots_flying := m.pilots_flying + 1 } },
             sendCalls := c.sendCalls + 1,
             emitted := c.emitted ++ [(pilot, Event.tookOff)] }
  let w ← match c.st.pilots.lookup pilot with
    | some pl => Except.ok pl.last_point.unix_time
    | none => Except.error .keyError
  let pairs ← points.items
  let kept ← filterUnseenRaw w pairs
  let unseen := kept.mergeSort (fun a b => decide (a.unix_time ≤ b.unix_time))
  let c ← unseen.foldlM (processPoint env pilot) c
  match unseen.getLast? with
  | some lastp =>
      pure { c with st := { c.st with
        pilots := setLastPoint c.st.pilots pilot lastp } }
  | none => pure c

/-- Outcome of one fetch round trip with the response body kept raw: the
same `except` arms as `FetchResult`, but a 2xx JSON body decodes to an
arbitrary `Json` value, of whatever shape. -/
inductive FetchRaw where
  | httpError
  | connectionError
  | timeoutError
  | requestException
  | invalidJson
  | decoded (body : Json)

/-- `LivetrackBot.get_json` with the decoded body kept raw; the metric
behavior is that of `get_json`. -/
def get_jsonRaw (fr : FetchRaw) (m : Metrics) : Option Json × Metrics :=
  match fr with
  | .httpError => (none, { m with errors_total := m.errors_total + 1 })
  | .connectionError => (none, { m with errors_total := m.errors_total + 1 })
  | .timeoutError => (none, { m with errors_total := m.errors_total + 1 })
  | .requestException => (none, { m with errors_total := m.errors_total + 1 })
  | .invalidJson =>
      (none, { m with requests_total := m.requests_total + 1,
                      errors_total := m.errors_total + 1 })
  | .decoded body =>
      (some body, { m with requests_total := m.requests_total + 1 })

/-- One iteration of the `while True:` loop of `run` over the raw body: day
rollover, fetch, the `if data:` truthiness guard, then `data.items()`
(which raises `AttributeError` on a non-object body) and the per-pilot
loop.  `env` supplies today's date and the send and delete oracles; the
fetch outcome is the `fr` argument, whose body is raw (it supersedes
`env.fetch`). -/
def runCycleRaw (env : Env) (fr : FetchRaw) (st : BotState) :
    Except PyErr CycleOut := do
  let (st1, delReqs) ← dailyReset env st
  let (data, m) := get_jsonRaw fr st1.metrics
  let st2 := { st1 with metrics := m }
  match data with
  | none => pure { st := st2, emitted := [], deleteReqs := delReqs }
  | some body =>
      if body.truthy then do
        let entries ← body.items
        let c ← entries.foldlM (processEntryRaw env)
          { st := st2, sendCalls := 0, emitted := [] }
        pure { st := c.st, emitted := c.emitted, deleteReqs := delReqs }
      else pure { st := st2, emitted := [], deleteReqs := delReqs }

/-- The JSON encoding of a well-shaped sample, with the wire field names and
types (strings for the decimal-as-text fields, floats for `Lat`/`Lng`,
integers for `Alt`, `unixTime` and `spotId`). -/
def Json.ofSample (s : Sample) : Json :=
  .obj [("cumDist", .str s.cumDist), ("takeOffDist", .str s.takeOffDist),
        ("flightTime", .str s.flightTime), ("AvgSpeed", .str s.avgSpeed),
        ("LegSpeed", .str s.legSpeed), ("LegDist", .str s.legDist),
        ("Lat", .float s.lat), ("Lng", .float s.lng), ("Alt", .int s.alt),
        ("Msg", .str s.msg), ("DateTime", .str s.dateTime),
        ("unixTime", .int s.unixTime), ("spotId", .int s.spotId)]

/-- On a well-shaped raw sample, `Point.__init__` yields exactly the typed
construction: the raw and typed views of a sample agree. -/
theorem fromJson_ofSample (s : Sample) :
    Point.fromJson (Json.ofSample s) = .ok (Point.ofSample s) := rfl

/-- The JSON encoding of a pilot's typed snapshot entry: the samples in
document order, then the `"Count"` key, as in the wire payloads. -/
def Json.ofPilotData (pd : PilotData) : Json :=
  .obj ((pd.samples.map (fun kv => (kv.1, Json.ofSample kv.2))) ++
    [("Count", Json.int pd.count)])

/-- On well-shaped raw items the unseen comprehension agrees with the typed
filter of `unseenPoints`: the raw and typed views of the per-pilot diff
agree. -/
theorem filterUnseenRaw_ofSamples (w : Int) (n : Int)
    (samples : List (String × Sample)) :
    filterUnseenRaw w
        ((samples.map (fun kv => (kv.1, Json.ofSample kv.2))) ++
          [("Count", Json.int n)]) =
      .ok ((samples.filter (fun kv =>
          kv.1 != "Count" && decide (w < kv.2.unixTime))).map
        (fun kv => Point.ofSample kv.2)) := by
  induction samples with
  | nil => rfl
  | cons kv rest ih =>
      obtain ⟨k, s⟩ := kv
      by_cases hk : k = "Count"
      · simp [filterUnseenRaw, hk, ih]
      · have hsub : (Json.ofSample s).subscript "unixTime" =
            .ok (Json.int s.unixTime) := rfl
        by_cases hlt : w < s.unixTime
        · simp [filterUnseenRaw, hk, hsub, hlt, fromJson_ofSample, ih,
            Bind.bind, Except.bind]
        · simp [filterUnseenRaw, hk, hsub, hlt, ih, Bind.bind, Except.bind]

/-- On the scenario snapshot the raw and typed cycles agree: both die at the
`Pilot` dataclass call with `TypeError`. -/
theorem runCycleRaw_scenario_agrees :
    runCycleRaw envAllSent
        (FetchRaw.decoded (Json.obj [("Han_Solo", Json.ofPilotData pdHan)]))
        st0 =
      runCycle envAllSent st0 := rfl

/-- C7 counterexample.  A response body that is valid JSON but not of the
expected shape is not a caught failure: on the payload `{"X": {}}` — a JSON
object whose pilot entry lacks the `"Count"` key — the new-pilot read
`points["Count"]` (bot.py 197) raises `KeyError`, which no handler catches,
so the cycle crashes and the polling loop terminates with nothing logged or
counted.  This refutes the claim that a fetch or decode failure, a
malformed payload included, never crashes the engine. -/
theorem wrong_shape_payload_crashes_cycle :
    runCycleRaw envAllSent
        (FetchRaw.decoded (Json.obj [("X", Json.obj [])])) st0 =
      .error .keyError := rfl

/-- C7 as amended.  Every failure of the fetch-and-decode step itself —
transport error (connection error, timeout, other request exception),
non-2xx status (the `HTTPError` arm), or a body that is not valid JSON — is
caught inside `get_json`, the error counter is bumped, no notification is
attempted, the engine state (pilot table, outstanding handles, rollover
date, hence every pilot's `last_point`) is retained, and the cycle ends
normally, so the infinite loop sleeps and retries.  A valid-JSON body of
unexpected shape is not among the caught failures: see the counterexample.
Stated on the raw cycle, for cycles in which no day rollover is due
(rollover clearing is separate, specified behavior). -/
theorem fetch_transport_or_json_failure_skips_cycle (env : Env)
    (fr : FetchRaw) (st : BotState)
    (hf : fr = .httpError ∨ fr = .connectionError ∨ fr = .timeoutError ∨
      fr = .requestException ∨ fr = .invalidJson)
    (hroll : ¬st.last_update < env.today) :
    ∃ out, runCycleRaw env fr st = .ok out ∧
      out.st.pilots = st.pilots ∧
      out.st.messages = st.messages ∧
      out.st.last_update = st.last_update ∧
      out.st.metrics.errors_total = st.metrics.errors_total + 1 ∧
      out.emitted = [] := by
  rcases hf with hf | hf | hf | hf | hf
  · subst hf
    refine ⟨CycleOut.mk
      { st with metrics :=
          { st.metrics with errors_total := st.metrics.errors_total + 1 } }
      [] [], ?_, rfl, rfl, rfl, rfl, rfl⟩
    unfold runCycleRaw dailyReset get_jsonRaw
    rw [if_neg hroll]
    rfl
  · subst hf
    refine ⟨CycleOut.mk
      { st with metrics :=
          { st.metrics with errors_total := st.metrics.errors_total + 1 } }
      [] [], ?_, rfl, rfl, rfl, rfl, rfl⟩
    unfold runCycleRaw dailyReset get_jsonRaw
    rw [if_neg hroll]
    rfl
  · subst hf
    refine ⟨CycleOut.mk
      { st with metrics :=
          { st.metrics with errors_total := st.metrics.errors_total + 1 } }
      [] [], ?_, rfl, rfl, rfl, rfl, rfl⟩
    unfold runCycleRaw dailyReset get_jsonRaw
    rw [if_neg hroll]
    rfl
  · subst hf
    refine ⟨CycleOut.mk
      { st with metrics :=
          { st.metrics with errors_total := st.metrics.errors_total + 1 } }
      [] [], ?_, rfl, rfl, rfl, rfl, rfl⟩
    unfold runCycleRaw dailyReset get_jsonRaw
    rw [if_neg hroll]
    rfl
  · subst hf
    refine ⟨CycleOut.mk
      { st with metrics :=
          { st.metrics with errors_total := st.metrics.errors_total + 1,
                            requests_total := st.metrics.requests_total + 1 } }
      [] [], ?_, rfl, rfl, rfl, rfl, rfl⟩
    unfold runCycleRaw dailyReset get_jsonRaw
    rw [if_neg hroll]
    rfl

/-- C7 witness: an HTTP-error fetch against the stored-pilot state skips the
raw cycle with the error counter bumped and everything else retained. -/
theorem fetch_transport_or_json_failure_skips_cycle_witness :
    ¬stWithHan.last_update < envFetchFail.today ∧
    ∃ out, runCycleRaw envFetchFail FetchRaw.httpError stWithHan = .ok out ∧
      out.st.pilots = stWithHan.pilots ∧
      out.st.messages = stWithHan.messages ∧
      out.st.last_update = stWithHan.last_update ∧
      out.st.metrics.errors_total = stWithHan.metrics.errors_total + 1 ∧
      out.emitted = [] :=
  ⟨by decide,
    fetch_transport_or_json_failure_skips_cycle envFetchFail
      FetchRaw.httpError stWithHan (Or.inl rfl) (by decide)⟩

/-- C8.  `format_date` never raises: for every input string it returns
`Except.ok` — the rendering of the primary-format parse when that parse
succeeds (wall-clock fields printed as `%Y-%m-%d %H:%M:%S UTC`), and the
original raw string unchanged when it fails (the fallback format
`"%Y-%m-%dT%H:%M:%S%"` ends in a stray `%`, so its attempt always raises the
`ValueError` the second handler catches).  The two concrete conjuncts pin the
repository's own unit-test fixture and a non-date string. -/
theorem format_date_never_raises_spec :
    (∀ s, format_date s =
      .ok (match strptimePrimary s with
           | some t => strftimeOut t
           | none => s))
    ∧ format_date "2022-04-15T11:52:48+0000" = .ok "2022-04-15 11:52:48 UTC"
    ∧ format_date "not a date" = .ok "not a date" := by
  refine ⟨fun s => ?_, rfl, rfl⟩
  cases hs : strptimePrimary s with
  | none => simp [format_date, tryStrptime, catchValueError, strptimeFallback, hs]
  | some t => simp [format_date, tryStrptime, catchValueError, hs]

/-- C9.  A cycle whose fetch times out (and in which no rollover is due)
bumps `errors_total` by exactly one and changes nothing else: the pilot
table (hence every pilot's `last_point`), the outstanding-message list, the
rollover date and every other metric — including `requests_total`, which is
only incremented after a successful response — are all unchanged, no
notification is attempted, and the cycle ends normally so the loop sleeps
and polls again. -/
theorem fetch_timeout_increments_errors_only (env : Env) (st : BotState)
    (hf : env.fetch = .timeoutError)
    (hroll : ¬st.last_update < env.today) :
    runCycle env st =
      .ok { st := { st with metrics :=
              { st.metrics with
                errors_total := st.metrics.errors_total + 1 } },
            emitted := [], deleteReqs := [] } := by
  unfold runCycle dailyReset get_json
  rw [if_neg hroll, hf]
  rfl

/-- C9 witness: the timeout-cycle frame property evaluated on the
stored-pilot state. -/
theorem fetch_timeout_increments_errors_only_witness :
    ¬stWithHan.last_update < envFetchTimeout.today ∧
    runCycle envFetchTimeout stWithHan =
      .ok { st := { stWithHan with metrics :=
              { stWithHan.metrics with
                errors_total := stWithHan.metrics.errors_total + 1 } },
            emitted := [], deleteReqs := [] } :=
  ⟨by decide,
    fetch_timeout_increments_errors_only envFetchTimeout stWithHan rfl
      (by decide)⟩

/-- C10.  A timeout-kind send failure makes `send_message` return `None`
(with the error counted), the per-point branch appends that `None` to the
outstanding-message list, and `delete_messages` applied to any list
containing such `None` entries never raises — the per-entry
`AttributeError` (from `msg.chat.id` on `None`) is caught, and every real
handle in the list is still submitted for deletion, in order. -/
theorem failed_send_appends_none_and_deletes_all_real_handles
    (env : Env) (c : Cyc) (pilot : String) (p : Point)
    (msgs : List (Option TgMessage))
    (hk : classifyMsgSpec p.msg ≠ .ignored)
    (ht : env.send c.sendCalls = .readTimeout ∨
      env.send c.sendCalls = .timedOut) :
    send_message env c.sendCalls c.st.metrics =
      .ok (none, { c.st.metrics with
        errors_total := c.st.metrics.errors_total + 1 }) ∧
    (∃ c', processPoint env pilot c p = .ok c' ∧
      c'.st.messages = c.st.messages ++ [none]) ∧
    delete_messages env msgs = .ok (msgs.filterMap id) := by
  have hsend := send_message_timeout ht c.st.metrics
  refine ⟨hsend, ?_, delete_messages_eq env msgs⟩
  rw [processPoint_char, if_neg hk, hsend]
  exact ⟨_, rfl, rfl⟩

/-- C10 witness: a timed-out Landed send appends `None`; deleting the list
`[handle₁, None, handle₂]` submits exactly the two real handles. -/
theorem failed_send_appends_none_witness :
    classifyMsgSpec (Point.ofSample sampleHan0).msg ≠ .ignored ∧
    (envTimeoutSend.send cycWithHan.sendCalls = .readTimeout ∨
      envTimeoutSend.send cycWithHan.sendCalls = .timedOut) ∧
    (∃ c', processPoint envTimeoutSend "Han_Solo" cycWithHan
        (Point.ofSample sampleHan0) = .ok c' ∧
      c'.st.messages = cycWithHan.st.messages ++ [none]) ∧
    delete_messages envTimeoutSend [some ⟨5, 11⟩, none, some ⟨5, 12⟩] =
      .ok [⟨5, 11⟩, ⟨5, 12⟩] := by
  have h := failed_send_appends_none_and_deletes_all_real_handles
    envTimeoutSend cycWithHan "Han_Solo" (Point.ofSample sampleHan0)
    [some ⟨5, 11⟩, none, some ⟨5, 12⟩] (by decide) (Or.inr rfl)
  exact ⟨by decide, Or.inr rfl, h.2.1, h.2.2⟩

end LiveTrack
